import Mathlib

/-!
Verification of the ml-service core of the Financial_tracking_app repository.

Each Python function relevant to the verified properties is shallowly
embedded as a Lean definition over exact rational arithmetic (Python floats
are modelled as `ℚ`; the two places where the source takes a square root,
`pandas.Series.std`, are modelled over `ℝ` with `Real.sqrt`).  `round(x, 2)`
is modelled as rounding `100*x` to the nearest integer.
-/

/-- Python `round(x, 2)` (two-decimal rounding) over exact rationals. -/
def round2 (q : ℚ) : ℚ := (round (q * 100) : ℤ) / 100

/-- Python `round(x, 1)` (one-decimal rounding) over exact rationals. -/
def round1 (q : ℚ) : ℚ := (round (q * 10) : ℤ) / 10

theorem abs_round2_sub_le (q : ℚ) : |round2 q - q| ≤ 1 / 200 := by
  have h := abs_sub_round (q * 100)
  rw [abs_sub_comm] at h
  have : round2 q - q = ((round (q * 100) : ℤ) - q * 100) / 100 := by
    unfold round2; ring
  rw [this, abs_div]
  rw [show |(100 : ℚ)| = 100 by norm_num]
  linarith [h]

theorem round2_mono {a b : ℚ} (h : a ≤ b) : round2 a ≤ round2 b := by
  unfold round2
  have h1 : round (a * 100) ≤ round (b * 100) := by
    rw [round_eq, round_eq]
    exact Int.floor_le_floor (by linarith)
  have h2 : ((round (a * 100) : ℤ) : ℚ) ≤ ((round (b * 100) : ℤ) : ℚ) :=
    Int.cast_le.mpr h1
  linarith

/-- One transaction row as fetched by `DataFetcher.get_user_transactions`
(`date` is a day number; `type` is `"income"` or `"expense"`). -/
structure Txn where
  date : ℤ
  type : String
  amount : ℚ
  category : String
  deriving DecidableEq, Repr

/-- `df['date'].max()` over a (nonempty) list of transactions. -/
def maxDate : List Txn → ℤ
  | [] => 0
  | t :: ts => ts.foldl (fun a x => max a x.date) t.date

/-- `df['date'].min()` over a (nonempty) list of transactions. -/
def minDate : List Txn → ℤ
  | [] => 0
  | t :: ts => ts.foldl (fun a x => min a x.date) t.date

/-- `(df['date'].max() - df['date'].min()).days + 1` — the span of the data. -/
def daysSpanned (df : List Txn) : ℤ := maxDate df - minDate df + 1

/-- `len(df[df['type'] == 'expense'])`. -/
def expenseCount (df : List Txn) : ℕ :=
  (df.filter (fun t => t.type = "expense")).length

/-- The dictionary returned by `DataFetcher.check_data_sufficiency`. -/
structure SufficiencyVerdict where
  sufficient : Bool
  reason : String
  days_of_data : ℤ
  total_transactions : ℕ
  expense_transactions : ℕ
  oldest_transaction : Option ℤ
  newest_transaction : Option ℤ
  deriving DecidableEq, Repr

/-- `DataFetcher.check_data_sufficiency(df, min_days, min_transactions,
min_expenses)` (src/ml-service/database/data_fetcher.py lines 29-66). -/
def checkDataSufficiency (df : List Txn) (minDays minTransactions minExpenses : ℕ) :
    SufficiencyVerdict :=
  if df = [] then
    { sufficient := false
      reason := "No transaction data found"
      days_of_data := 0
      total_transactions := 0
      expense_transactions := 0
      oldest_transaction := none
      newest_transaction := none }
  else
    let dateRange := daysSpanned df
    let totalTransactions := df.length
    let expenseTransactions := expenseCount df
    let hasEnoughDays := decide ((minDays : ℤ) ≤ dateRange)
    let hasEnoughTransactions := decide (minTransactions ≤ totalTransactions)
    let hasEnoughExpenses := decide (minExpenses ≤ expenseTransactions)
    let reasons : List String :=
      (if hasEnoughDays then [] else
        ["Data spans only " ++ toString dateRange ++ " days (need " ++
          toString minDays ++ "+)"]) ++
      (if hasEnoughTransactions then [] else
        ["Only " ++ toString totalTransactions ++ " transactions (need " ++
          toString minTransactions ++ "+)"]) ++
      (if hasEnoughExpenses then [] else
        ["Only " ++ toString expenseTransactions ++ " expense transactions (need " ++
          toString minExpenses ++ "+)"])
    { sufficient := hasEnoughDays && hasEnoughTransactions && hasEnoughExpenses
      reason := if reasons = [] then "Data is sufficient"
                else String.intercalate "; " reasons
      days_of_data := dateRange
      total_transactions := totalTransactions
      expense_transactions := expenseTransactions
      oldest_transaction := some (minDate df)
      newest_transaction := some (maxDate df) }

theorem foldl_min_le (l : List Txn) (a : ℤ) :
    List.foldl (fun a x => min a x.date) a l ≤ a := by
  induction l generalizing a with
  | nil => simp
  | cons u us ih =>
    simp only [List.foldl_cons]
    exact le_trans (ih (min a u.date)) (min_le_left _ _)

theorem le_foldl_max (l : List Txn) (a : ℤ) :
    a ≤ List.foldl (fun a x => max a x.date) a l := by
  induction l generalizing a with
  | nil => simp
  | cons u us ih =>
    simp only [List.foldl_cons]
    exact le_trans (le_max_left _ _) (ih (max a u.date))

theorem minDate_le_maxDate (df : List Txn) : minDate df ≤ maxDate df := by
  match df with
  | [] => simp [minDate, maxDate]
  | t :: ts =>
    simp only [minDate, maxDate]
    exact le_trans (foldl_min_le ts t.date) (le_foldl_max ts t.date)

theorem one_le_daysSpanned (df : List Txn) : 1 ≤ daysSpanned df := by
  have := minDate_le_maxDate df
  unfold daysSpanned
  omega

theorem intercalate_singleton (s a : String) : String.intercalate s [a] = a := rfl

/-- C1: for every non-empty sample, `check_data_sufficiency` returns
`sufficient = true` iff the span, total-count and expense-count thresholds all
hold, where the span is `(max date - min date) + 1` (hence at least 1); a
sample meeting each threshold exactly is sufficient, and decreasing any single
one of the three measured quantities by one flips the verdict to `false` with
that condition's specific failure text as the reason (hence included in it). -/
theorem C1_sufficiency_gate (df : List Txn) (hne : df ≠ [])
    (minD minT minE : ℕ) :
    let v := checkDataSufficiency df minD minT minE
    (v.sufficient = true ↔
      ((minD : ℤ) ≤ daysSpanned df ∧ minT ≤ df.length ∧ minE ≤ expenseCount df))
    ∧ v.days_of_data = maxDate df - minDate df + 1
    ∧ 1 ≤ v.days_of_data
    ∧ (daysSpanned df = (minD : ℤ) → df.length = minT → expenseCount df = minE →
        v.sufficient = true)
    ∧ (daysSpanned df = (minD : ℤ) - 1 → df.length = minT → expenseCount df = minE →
        v.sufficient = false ∧
        v.reason = "Data spans only " ++ toString (daysSpanned df) ++
          " days (need " ++ toString minD ++ "+)")
    ∧ (daysSpanned df = (minD : ℤ) → df.length + 1 = minT → expenseCount df = minE →
        v.sufficient = false ∧
        v.reason = "Only " ++ toString df.length ++ " transactions (need " ++
          toString minT ++ "+)")
    ∧ (daysSpanned df = (minD : ℤ) → df.length = minT → expenseCount df + 1 = minE →
        v.sufficient = false ∧
        v.reason = "Only " ++ toString (expenseCount df) ++
          " expense transactions (need " ++ toString minE ++ "+)") := by
  intro v
  have hv : v = checkDataSufficiency df minD minT minE := rfl
  refine ⟨?_, ?_, ?_, ?_, ?_, ?_, ?_⟩
  · simp [hv, checkDataSufficiency, hne, and_assoc]
  · simp [hv, checkDataSufficiency, hne, daysSpanned]
  · simp only [hv, checkDataSufficiency, if_neg hne]
    exact one_le_daysSpanned df
  · intro h1 h2 h3
    simp [hv, checkDataSufficiency, hne, h1, h2, h3]
  · intro h1 h2 h3
    have hd : ¬ ((minD : ℤ) ≤ daysSpanned df) := by omega
    have ht : minT ≤ df.length := le_of_eq h2.symm
    have he : minE ≤ expenseCount df := le_of_eq h3.symm
    simp [hv, checkDataSufficiency, hne, hd, ht, he, intercalate_singleton]
  · intro h1 h2 h3
    have hd : (minD : ℤ) ≤ daysSpanned df := le_of_eq h1.symm
    have ht : ¬ (minT ≤ df.length) := by omega
    have he : minE ≤ expenseCount df := le_of_eq h3.symm
    simp [hv, checkDataSufficiency, hne, hd, ht, he, intercalate_singleton]
  · intro h1 h2 h3
    have hd : (minD : ℤ) ≤ daysSpanned df := le_of_eq h1.symm
    have ht : minT ≤ df.length := le_of_eq h2.symm
    have he : ¬ (minE ≤ expenseCount df) := by omega
    simp [hv, checkDataSufficiency, hne, hd, ht, he, intercalate_singleton]

/-- A concrete sample: 20 expenses on days 0..19 and 10 incomes on days
19..28, so it spans 29 days with 30 transactions, 20 of them expenses. -/
def sampleTxns : List Txn :=
  (List.range 20).map (fun i => ⟨(i : ℤ), "expense", 10, "Food"⟩) ++
  (List.range 10).map (fun i => ⟨(19 + i : ℤ), "income", 50, "Salary"⟩)

set_option maxRecDepth 8000 in
/-- Witness for C1: at thresholds (30, 30, 20), the concrete 29-day sample has
one day too few, so the gate reports exactly the day-span failure text. -/
theorem C1_sufficiency_gate_witness :
    (checkDataSufficiency sampleTxns 30 30 20).sufficient = false ∧
    (checkDataSufficiency sampleTxns 30 30 20).reason =
      "Data spans only " ++ toString (daysSpanned sampleTxns) ++
        " days (need " ++ toString (30 : ℕ) ++ "+)" := by
  have h := C1_sufficiency_gate sampleTxns (by decide) 30 30 20
  exact h.2.2.2.2.1 (by decide) (by decide) (by decide)

/-- C9: the empty sample short-circuits to an insufficient verdict with the
exact reason "No transaction data found" and zero counts; `checkDataSufficiency`
is a total function, so no exception can be raised. -/
theorem C9_empty_sample (minD minT minE : ℕ) :
    checkDataSufficiency [] minD minT minE =
      { sufficient := false
        reason := "No transaction data found"
        days_of_data := 0
        total_transactions := 0
        expense_transactions := 0
        oldest_transaction := none
        newest_transaction := none } := rfl

/-- The spending trend labels returned by `BudgetService._calculate_trend`. -/
inductive Trend where
  | increasing
  | decreasing
  | stable
  deriving DecidableEq, Repr

/-- Mean of a list of rationals (`numpy.mean` / `pandas.Series.mean`). -/
def listMean (l : List ℚ) : ℚ := l.sum / l.length

/-- `BudgetService._calculate_trend(monthly_data)`
(src/ml-service/services/budget_service.py lines 71-100): split the ordered
monthly series into halves and compare the half-averages. -/
def calculateTrend (monthlyData : List ℚ) : Trend :=
  if monthlyData.length < 2 then .stable
  else
    let firstHalfAvg := listMean (monthlyData.take (monthlyData.length / 2))
    let secondHalfAvg := listMean (monthlyData.drop (monthlyData.length / 2))
    if firstHalfAvg = 0 then
      if 0 < secondHalfAvg then .increasing else .stable
    else
      let changePct := (secondHalfAvg - firstHalfAvg) / firstHalfAvg * 100
      if 15 < changePct then .increasing
      else if changePct < -15 then .decreasing
      else .stable

/-- `BudgetService._calculate_priority(stats)`
(src/ml-service/services/budget_service.py lines 263-275). -/
def calculatePriority (monthlyAvg monthlyStd : ℚ) : String :=
  let variability := if 0 < monthlyAvg then monthlyStd / monthlyAvg else 0
  if 500 < monthlyAvg ∨ 1 / 2 < variability then "high"
  else if 200 < monthlyAvg ∨ 3 / 10 < variability then "medium"
  else "low"

/-- The per-category spending statistics consumed by the budget functions
(the entries of the dict built by `BudgetService.analyze_spending_patterns`
that `recommend_budgets` / `optimize_budget_allocation` read). -/
structure CatStat where
  monthly_avg : ℚ
  monthly_std : ℚ
  trend : Trend
  count : ℕ
  deriving DecidableEq, Repr

/-- One entry of the `allocation` list built by
`BudgetService.optimize_budget_allocation`. -/
structure Allocation where
  category : String
  allocated_amount : ℚ
  percentage_of_total : ℚ
  priority : String
  deriving DecidableEq, Repr

/-- The per-category allocation loop of `optimize_budget_allocation`
(src/ml-service/services/budget_service.py lines 349-372): proportional share
of the total monthly spend, ±10% priority adjustment, rounded to 2 decimals. -/
def rawAllocations (totalBudget : ℚ) (patterns : List (String × CatStat)) :
    List Allocation :=
  let totalSpending := (patterns.map (fun p => p.2.monthly_avg)).sum
  patterns.map (fun p =>
    let proportion := if 0 < totalSpending then p.2.monthly_avg / totalSpending else 0
    let allocated := totalBudget * proportion
    let priority := calculatePriority p.2.monthly_avg p.2.monthly_std
    let allocated := if priority = "high" then allocated * (11 / 10)
      else if priority = "low" then allocated * (9 / 10) else allocated
    { category := p.1
      allocated_amount := round2 allocated
      percentage_of_total := round2 (proportion * 100)
      priority := priority })

/-- `sum(a["allocated_amount"] for a in allocations)` before normalization. -/
def preNormTotal (totalBudget : ℚ) (patterns : List (String × CatStat)) : ℚ :=
  ((rawAllocations totalBudget patterns).map Allocation.allocated_amount).sum

/-- The normalization step of `optimize_budget_allocation`
(src/ml-service/services/budget_service.py lines 374-381): when the rounded
total is positive, rescale every allocation by `total_budget/current_total`
(and round again); otherwise leave the allocations unchanged. -/
def normalizedAllocations (totalBudget : ℚ)
    (patterns : List (String × CatStat)) : List Allocation :=
  let allocations := rawAllocations totalBudget patterns
  let currentTotal := preNormTotal totalBudget patterns
  if 0 < currentTotal then
    allocations.map (fun a =>
      { a with allocated_amount := round2 (a.allocated_amount * (totalBudget / currentTotal)) })
  else allocations

/-- `BudgetService.optimize_budget_allocation(user_id, total_budget)`
(src/ml-service/services/budget_service.py lines 349-391), as a function of
the spending patterns: allocate, renormalize, and sort by allocation
(descending). -/
def optimizeBudgetAllocation (totalBudget : ℚ)
    (patterns : List (String × CatStat)) : List Allocation :=
  (normalizedAllocations totalBudget patterns).mergeSort
    (fun a b => decide (b.allocated_amount ≤ a.allocated_amount))

/-- The sum of the final `allocated_amount` values. -/
def allocationSum (totalBudget : ℚ) (patterns : List (String × CatStat)) : ℚ :=
  ((optimizeBudgetAllocation totalBudget patterns).map Allocation.allocated_amount).sum

theorem allocationSum_eq (totalBudget : ℚ) (patterns : List (String × CatStat)) :
    allocationSum totalBudget patterns =
      ((normalizedAllocations totalBudget patterns).map
        Allocation.allocated_amount).sum := by
  unfold allocationSum optimizeBudgetAllocation
  exact List.Perm.sum_eq (List.Perm.map _ (List.mergeSort_perm _ _))

theorem abs_sum_map_round2_sub (m : List ℚ) :
    |(m.map round2).sum - m.sum| ≤ m.length * (1 / 200) := by
  induction m with
  | nil => simp
  | cons x xs ih =>
    simp only [List.map_cons, List.sum_cons, List.length_cons]
    have h1 := abs_round2_sub_le x
    calc |round2 x + (xs.map round2).sum - (x + xs.sum)|
        = |(round2 x - x) + ((xs.map round2).sum - xs.sum)| := by ring_nf
      _ ≤ |round2 x - x| + |(xs.map round2).sum - xs.sum| := abs_add _ _
      _ ≤ 1 / 200 + xs.length * (1 / 200) := add_le_add h1 ih
      _ = ((xs.length + 1 : ℕ) : ℚ) * (1 / 200) := by push_cast; ring

/-- C2 (amended): whenever the rounded pre-normalization allocations have a
positive sum, the final `allocated_amount` values sum to `total_budget` within
`0.005` per category.  Before the final per-entry rounding the renormalized
amounts sum to `total_budget` exactly; each rounding moves the sum by at most
half a cent. -/
theorem C2_alloc_sum_bound (B : ℚ) (pats : List (String × CatStat))
    (hpos : 0 < preNormTotal B pats) :
    |allocationSum B pats - B| ≤ pats.length * (1 / 200) := by
  rw [allocationSum_eq]
  have hTne : preNormTotal B pats ≠ 0 := ne_of_gt hpos
  have h1 : ((normalizedAllocations B pats).map Allocation.allocated_amount) =
      ((rawAllocations B pats).map
        (fun a => a.allocated_amount * (B / preNormTotal B pats))).map round2 := by
    simp only [normalizedAllocations, if_pos hpos, List.map_map]
    rfl
  have h2 : ((rawAllocations B pats).map
      (fun a => a.allocated_amount * (B / preNormTotal B pats))).sum = B := by
    rw [show (fun (a : Allocation) => a.allocated_amount * (B / preNormTotal B pats)) =
      (fun a => Allocation.allocated_amount a * (B / preNormTotal B pats)) from rfl]
    rw [List.sum_map_mul_right]
    show preNormTotal B pats * (B / preNormTotal B pats) = B
    field_simp
  have h3 : ((rawAllocations B pats).map
      (fun a => a.allocated_amount * (B / preNormTotal B pats))).length = pats.length := by
    simp [rawAllocations]
  rw [h1]
  calc |(((rawAllocations B pats).map
        (fun a => a.allocated_amount * (B / preNormTotal B pats))).map round2).sum - B|
      = |(((rawAllocations B pats).map
        (fun a => a.allocated_amount * (B / preNormTotal B pats))).map round2).sum -
        ((rawAllocations B pats).map
        (fun a => a.allocated_amount * (B / preNormTotal B pats))).sum| := by rw [h2]
    _ ≤ ((rawAllocations B pats).map
        (fun a => a.allocated_amount * (B / preNormTotal B pats))).length * (1 / 200) :=
        abs_sum_map_round2_sub _
    _ = pats.length * (1 / 200) := by rw [h3]

/-- C2 counterexample: with five categories of monthly averages 23, 23, 23, 23
and 16 (all low priority) and `total_budget = 1.2`, the renormalized scaled
amounts are four copies of `0.2555...` (rounding to `0.26`) and one
`0.1777...` (rounding to `0.18`), so the final allocations sum to `1.22` —
off by `0.02 > 0.01` from the requested total. -/
theorem C2_counterexample :
    ¬ (|allocationSum (6/5) [("a", ⟨23, 0, .stable, 1⟩), ("b", ⟨23, 0, .stable, 1⟩),
        ("c", ⟨23, 0, .stable, 1⟩), ("d", ⟨23, 0, .stable, 1⟩), ("e", ⟨16, 0, .stable, 1⟩)]
        - 6/5| ≤ 1/100) := by
  rw [allocationSum_eq]
  have h : (List.map Allocation.allocated_amount (normalizedAllocations (6/5)
      [("a", ⟨23, 0, .stable, 1⟩), ("b", ⟨23, 0, .stable, 1⟩),
        ("c", ⟨23, 0, .stable, 1⟩), ("d", ⟨23, 0, .stable, 1⟩),
        ("e", ⟨16, 0, .stable, 1⟩)])).sum = 61/50 := by
    norm_num [normalizedAllocations, rawAllocations, preNormTotal, calculatePriority,
      round2, round_eq, show (("low" : String) = "high") = False by simp,
      show (("low" : String) = "low") = True by simp]
  rw [h]
  norm_num [abs_le]

/-- Witness for the amended C2 bound: the spec's own scenario — two categories
with monthly averages 300 and 100 and `total_budget = 1000` — satisfies the
positive-pre-normalization-total hypothesis, and the bound gives `0.01` for
two categories. -/
theorem C2_alloc_sum_bound_witness :
    |allocationSum 1000 [("Cat1", ⟨300, 0, .stable, 1⟩), ("Cat2", ⟨100, 0, .stable, 1⟩)]
      - 1000| ≤
      ([("Cat1", (⟨300, 0, .stable, 1⟩ : CatStat)), ("Cat2", ⟨100, 0, .stable, 1⟩)].length :
        ℚ) * (1 / 200) := by
  apply C2_alloc_sum_bound
  norm_num [preNormTotal, rawAllocations, calculatePriority, round2, round_eq,
    show (("medium" : String) = "high") = False by simp,
    show (("medium" : String) = "low") = False by simp,
    show (("low" : String) = "high") = False by simp,
    show (("low" : String) = "low") = True by simp]

/-- The first-half average of the ordered monthly series
(`np.mean(values[:len(values)//2])`). -/
def firstHalfAvg (l : List ℚ) : ℚ := listMean (l.take (l.length / 2))

/-- The second-half average of the ordered monthly series
(`np.mean(values[len(values)//2:])`). -/
def secondHalfAvg (l : List ℚ) : ℚ := listMean (l.drop (l.length / 2))

/-- The half-over-half percentage change compared against the ±15 thresholds. -/
def halfChangePct (l : List ℚ) : ℚ :=
  (secondHalfAvg l - firstHalfAvg l) / firstHalfAvg l * 100

/-- C7: the trend label compares the averages of the first and second halves
of the ordered monthly series: above +15% is "increasing", below -15% is
"decreasing", otherwise "stable"; fewer than 2 points defaults to "stable";
and a zero first-half average gives "increasing" exactly when the second-half
average is positive, else "stable". -/
theorem C7_trend_halves (l : List ℚ) :
    (l.length < 2 → calculateTrend l = .stable)
    ∧ (2 ≤ l.length → firstHalfAvg l = 0 →
        ((calculateTrend l = .increasing ↔ 0 < secondHalfAvg l)
          ∧ (calculateTrend l = .stable ↔ ¬ 0 < secondHalfAvg l)))
    ∧ (2 ≤ l.length → firstHalfAvg l ≠ 0 →
        ((calculateTrend l = .increasing ↔ 15 < halfChangePct l)
          ∧ (calculateTrend l = .decreasing ↔ halfChangePct l < -15)
          ∧ (calculateTrend l = .stable ↔
              (-15 ≤ halfChangePct l ∧ halfChangePct l ≤ 15)))) := by
  set fa := firstHalfAvg l with hfadef
  set sa := secondHalfAvg l with hsadef
  set chg := halfChangePct l with hchgdef
  have hfa : fa = listMean (l.take (l.length / 2)) := rfl
  have hsa : sa = listMean (l.drop (l.length / 2)) := rfl
  have hchg : chg = (sa - fa) / fa * 100 := rfl
  refine ⟨?_, ?_, ?_⟩
  · intro h
    simp [calculateTrend, h]
  · intro h2 h0
    have hlt : ¬ (l.length < 2) := by omega
    by_cases hs : 0 < sa
    · simp [calculateTrend, hlt, ← hfa, ← hsa, h0, hs]
    · simp [calculateTrend, hlt, ← hfa, ← hsa, h0, hs]
  · intro h2 h0
    have hlt : ¬ (l.length < 2) := by omega
    have hct : calculateTrend l =
        (if 15 < chg then Trend.increasing
          else if chg < -15 then Trend.decreasing else Trend.stable) := by
      simp [calculateTrend, hlt, ← hfa, ← hsa, ← hchg, h0]
    rw [hct]
    by_cases hi : 15 < chg
    · rw [if_pos hi]
      exact ⟨⟨fun _ => hi, fun _ => rfl⟩,
        ⟨fun h => (nomatch h), fun h => absurd h (by linarith)⟩,
        ⟨fun h => (nomatch h), fun h => absurd hi (not_lt.mpr h.2)⟩⟩
    · by_cases hd : chg < -15
      · rw [if_neg hi, if_pos hd]
        exact ⟨⟨fun h => (nomatch h), fun h => absurd h hi⟩,
          ⟨fun _ => hd, fun _ => rfl⟩,
          ⟨fun h => (nomatch h), fun h => absurd hd (not_lt.mpr h.1)⟩⟩
      · rw [if_neg hi, if_neg hd]
        exact ⟨⟨fun h => (nomatch h), fun h => absurd h hi⟩,
          ⟨fun h => (nomatch h), fun h => absurd h hd⟩,
          ⟨fun _ => ⟨by linarith, by linarith⟩, fun _ => rfl⟩⟩

/-- Witness for C7: the two-month series [100, 200] has a +100% half-over-half
change, so the trend is "increasing". -/
theorem C7_trend_halves_witness : calculateTrend [100, 200] = Trend.increasing := by
  have h := C7_trend_halves [100, 200]
  exact (h.2.2 (by norm_num) (by norm_num [firstHalfAvg, listMean])).1.mpr
    (by norm_num [halfChangePct, firstHalfAvg, secondHalfAvg, listMean])

/-- The fixed multiplier table of `BudgetService.recommend_budgets`
(src/ml-service/services/budget_service.py lines 146-165); an unknown approach
falls back to the "balanced" column via `multipliers.get(approach, ...)`. -/
def budgetMultiplier (approach : String) (t : Trend) : ℚ :=
  if approach = "conservative" then
    match t with
    | .stable => 1.0
    | .increasing => 1.15
    | .decreasing => 0.90
  else if approach = "flexible" then
    match t with
    | .stable => 1.20
    | .increasing => 1.35
    | .decreasing => 1.10
  else
    match t with
    | .stable => 1.10
    | .increasing => 1.25
    | .decreasing => 1.0

/-- The per-category amount computed by `recommend_budgets`
(src/ml-service/services/budget_service.py lines 170-185): monthly average
times the trend multiplier, plus half a monthly standard deviation when the
standard deviation is positive, rounded to 2 decimals. -/
def recommendedAmount (approach : String) (s : CatStat) : ℚ :=
  let baseAmount := s.monthly_avg * budgetMultiplier approach s.trend
  let withBuffer := if 0 < s.monthly_std then baseAmount + s.monthly_std * 0.5
    else baseAmount
  round2 withBuffer

/-- One entry of the `recommendations` list built by `recommend_budgets`
(the free-text `justification` field is not modelled). -/
structure BudgetRec where
  category : String
  recommended_amount : ℚ
  current_monthly_avg : ℚ
  trend : Trend
  transaction_count : ℕ
  variability : String
  priority : String
  deriving DecidableEq, Repr

/-- The recommendation loop and final sort of `BudgetService.recommend_budgets`
(src/ml-service/services/budget_service.py lines 167-205), as a function of the
analyzed spending patterns. -/
def recommendBudgets (approach : String) (patterns : List (String × CatStat)) :
    List BudgetRec :=
  (patterns.map (fun p =>
    { category := p.1
      recommended_amount := recommendedAmount approach p.2
      current_monthly_avg := round2 p.2.monthly_avg
      trend := p.2.trend
      transaction_count := p.2.count
      variability := if p.2.monthly_avg * 0.3 < p.2.monthly_std then "high" else "low"
      priority := calculatePriority p.2.monthly_avg p.2.monthly_std })).mergeSort
    (fun a b => decide (b.recommended_amount ≤ a.recommended_amount))

/-- C8: every category of a `recommend_budgets` run is assigned
`round2(monthly_avg * multiplier(approach, trend) + 0.5 * monthly_std)`,
where the fixed multiplier table has all values in [0.90, 1.35] and
"increasing" receives the largest multiplier within each approach. -/
theorem C8_recommended_amount (approach : String)
    (patterns : List (String × CatStat)) (c : String) (s : CatStat)
    (hmem : (c, s) ∈ patterns) (hstd : 0 ≤ s.monthly_std) :
    (∃ r ∈ recommendBudgets approach patterns,
      r.category = c ∧
      r.recommended_amount =
        round2 (s.monthly_avg * budgetMultiplier approach s.trend +
          0.5 * s.monthly_std))
    ∧ (∀ a t, (0.90 : ℚ) ≤ budgetMultiplier a t ∧ budgetMultiplier a t ≤ 1.35)
    ∧ (∀ a t, budgetMultiplier a t ≤ budgetMultiplier a Trend.increasing) := by
  refine ⟨?_, ?_, ?_⟩
  · refine ⟨{ category := c
              recommended_amount := recommendedAmount approach s
              current_monthly_avg := round2 s.monthly_avg
              trend := s.trend
              transaction_count := s.count
              variability := if s.monthly_avg * 0.3 < s.monthly_std then "high" else "low"
              priority := calculatePriority s.monthly_avg s.monthly_std }, ?_, rfl, ?_⟩
    · rw [recommendBudgets, List.mem_mergeSort]
      exact List.mem_map_of_mem _ hmem
    · show recommendedAmount approach s = _
      unfold recommendedAmount
      by_cases h : 0 < s.monthly_std
      · simp only [if_pos h]
        exact congrArg round2 (by ring)
      · have h0 : s.monthly_std = 0 := le_antisymm (not_lt.mp h) hstd
        simp only [if_neg h]
        exact congrArg round2 (by rw [h0]; ring)
  · intro a t
    unfold budgetMultiplier
    rcases t <;> split_ifs <;> norm_num
  · intro a t
    unfold budgetMultiplier
    rcases t <;> split_ifs <;> norm_num

/-- Witness for C8: a single "Food" category with monthly average 100,
standard deviation 10 and stable trend under the "balanced" approach. -/
theorem C8_recommended_amount_witness :
    (∃ r ∈ recommendBudgets "balanced" [("Food", (⟨100, 10, .stable, 5⟩ : CatStat))],
      r.category = "Food" ∧
      r.recommended_amount =
        round2 ((100 : ℚ) * budgetMultiplier "balanced" Trend.stable + 0.5 * 10))
    ∧ (∀ a t, (0.90 : ℚ) ≤ budgetMultiplier a t ∧ budgetMultiplier a t ≤ 1.35)
    ∧ (∀ a t, budgetMultiplier a t ≤ budgetMultiplier a Trend.increasing) :=
  C8_recommended_amount "balanced" [("Food", ⟨100, 10, .stable, 5⟩)] "Food"
    ⟨100, 10, .stable, 5⟩ (by simp) (by norm_num)

/-- The savings statistics dict returned by `GoalService.calculate_savings_rate`
(src/ml-service/services/goal_service.py lines 74-81). -/
structure SavingsStats where
  avg_monthly_income : ℚ
  avg_monthly_expenses : ℚ
  avg_monthly_savings : ℚ
  savings_rate_percentage : ℚ
  consistency_score : ℚ
  deriving DecidableEq, Repr

/-- The `avg_monthly_savings` value computed by `calculate_savings_rate`
(src/ml-service/services/goal_service.py lines 46-77): the mean of the
per-month `income - expenses` values, rounded to 2 decimals — negative
whenever expenses exceed income on average.  `monthly` is the list of
per-month `(income, expenses)` totals. -/
def avgMonthlySavings (monthly : List (ℚ × ℚ)) : ℚ :=
  round2 (listMean (monthly.map (fun m => m.1 - m.2)))

/-- `GoalService._calculate_achievement_probability`
(src/ml-service/services/goal_service.py lines 197-247).  `monthsRequired` is
`none` when the Python value is `float('inf')` (contribution ≤ 0);
`deadlineMonths` is the already-parsed `months_to_deadline` (`none` when no
valid deadline string is supplied). -/
def calcAchievementProbability (contribution avgSavings consistency : ℚ)
    (monthsRequired : Option ℚ) (deadlineMonths : Option ℤ) : ℚ :=
  let contributionRatio := if avgSavings ≤ 0 then 0.5 else min (contribution / avgSavings) 2.0
  let baseProbability := 50 + contributionRatio * 25
  let probability := baseProbability * (0.7 + 0.3 * (consistency / 100))
  let probability :=
    match deadlineMonths with
    | none => probability
    | some m =>
      if m ≤ 0 then probability * 0.1
      else
        match monthsRequired with
        | none => 0
        | some mr => if (m : ℚ) < mr then probability * ((m : ℚ) / mr)
            else probability * 1.1
  let probability :=
    match monthsRequired with
    | none => probability * 0.7
    | some mr => if 60 < mr then probability * 0.7
        else if 36 < mr then probability * 0.85 else probability
  max 5 (min 95 probability)

/-- The result dict of `GoalService.predict_goal_achievement`; the fields
absent from the early "already achieved" return are modelled as `none`
(the wall-clock `estimated_completion_date` is not modelled). -/
structure GoalPrediction where
  success : Bool
  achievement_probability : ℚ
  status : String
  months_required : Option ℚ
  is_realistic : Option Bool
  current_progress_percentage : Option ℚ
  message : Option String
  deriving DecidableEq, Repr

/-- `GoalService.predict_goal_achievement`
(src/ml-service/services/goal_service.py lines 93-186), as a function of the
already-computed savings statistics. -/
def predictGoalAchievement (stats : SavingsStats) (target current contribution : ℚ)
    (deadlineMonths : Option ℤ) : GoalPrediction :=
  let remaining := target - current
  if remaining ≤ 0 then
    { success := true
      achievement_probability := 100
      status := "achieved"
      months_required := some 0
      is_realistic := none
      current_progress_percentage := none
      message := some "Goal already achieved!" }
  else
    let monthsRequired : Option ℚ :=
      if contribution ≤ 0 then none
      else
        let m := remaining / contribution
        if 9999 < m then some 9999 else some m
    let probability := calcAchievementProbability contribution
      stats.avg_monthly_savings stats.consistency_score monthsRequired deadlineMonths
    let isRealistic := decide (contribution ≤ stats.avg_monthly_savings * 1.2)
    let status := if 80 ≤ probability then "highly_likely"
      else if 50 ≤ probability then "possible"
      else if 30 ≤ probability then "challenging"
      else "unlikely"
    { success := true
      achievement_probability := round2 probability
      status := status
      months_required := monthsRequired.map round1
      is_realistic := some isRealistic
      current_progress_percentage := some (round2 (current / target * 100))
      message := none }

/-- C4: whenever `target_amount - current_amount ≤ 0`, the prediction is the
early "achieved" result — probability 100, status "achieved",
months_required 0 — independent of the contribution, the deadline and the
savings statistics. -/
theorem C4_goal_already_achieved (stats : SavingsStats)
    (target current contribution : ℚ) (deadlineMonths : Option ℤ)
    (h : target - current ≤ 0) :
    predictGoalAchievement stats target current contribution deadlineMonths =
      { success := true
        achievement_probability := 100
        status := "achieved"
        months_required := some 0
        is_realistic := none
        current_progress_percentage := none
        message := some "Goal already achieved!" } := by
  have h' : target ≤ current := by linarith
  simp [predictGoalAchievement, h']

/-- Witness for C4: a goal with target 1000 and current 1000 is reported
"achieved" with probability 100 even with contribution 77, a past deadline,
and zeroed savings statistics. -/
theorem C4_goal_already_achieved_witness :
    predictGoalAchievement ⟨0, 0, 0, 0, 0⟩ 1000 1000 77 (some (-3)) =
      { success := true
        achievement_probability := 100
        status := "achieved"
        months_required := some 0
        is_realistic := none
        current_progress_percentage := none
        message := some "Goal already achieved!" } :=
  C4_goal_already_achieved ⟨0, 0, 0, 0, 0⟩ 1000 1000 77 (some (-3)) (by norm_num)

/-- C10 counterexample: a user whose only analyzed month had 0 income and 100
expenses has `avg_monthly_savings = -100`; for a goal with remaining 100 and
`monthly_contribution = 0`, the code computes
`is_realistic = (0 <= -100 * 1.2) = False`, so `is_realistic` is not always
true when the contribution is 0. -/
theorem C10_counterexample :
    (predictGoalAchievement ⟨0, 100, avgMonthlySavings [(0, 100)], 0, 0⟩
        100 0 0 none).is_realistic = some false := by
  have havg : avgMonthlySavings [(0, 100)] = -100 := by
    norm_num [avgMonthlySavings, listMean, round2, round_eq]
  rw [havg]
  norm_num [predictGoalAchievement]

/-- C10 (amended): for predictions with a positive remaining amount,
`is_realistic` is true iff `monthly_contribution ≤ 1.2 * avg_monthly_savings`;
when the contribution is 0 this makes `is_realistic` true provided the
computed average monthly savings is non-negative. -/
theorem C10_is_realistic (stats : SavingsStats)
    (target current contribution : ℚ) (deadlineMonths : Option ℤ)
    (h : 0 < target - current) :
    ((predictGoalAchievement stats target current contribution
        deadlineMonths).is_realistic = some true ↔
      contribution ≤ stats.avg_monthly_savings * 1.2)
    ∧ (0 ≤ stats.avg_monthly_savings → contribution = 0 →
      (predictGoalAchievement stats target current contribution
        deadlineMonths).is_realistic = some true) := by
  have h' : ¬ (target - current ≤ 0) := by linarith
  have h'' : ¬ (target ≤ current) := by linarith
  constructor
  · simp [predictGoalAchievement, h'']
  · intro havg hc
    simp [predictGoalAchievement, h'', hc]
    linarith

/-- Witness for C10 (amended): remaining 100 > 0, contribution 30 against
average monthly savings 50 — realistic since 30 ≤ 60. -/
theorem C10_is_realistic_witness :
    ((predictGoalAchievement ⟨0, 0, 50, 0, 80⟩ 100 0 30 none).is_realistic =
        some true ↔ (30 : ℚ) ≤ 50 * 1.2)
    ∧ ((0 : ℚ) ≤ 50 → (30 : ℚ) = 0 →
      (predictGoalAchievement ⟨0, 0, 50, 0, 80⟩ 100 0 30 none).is_realistic =
        some true) :=
  C10_is_realistic ⟨0, 0, 50, 0, 80⟩ 100 0 30 none (by norm_num)

/-- Left-pad a digit string with zeros to the given width. -/
def zeroPad (n : ℕ) (s : String) : String :=
  if s.length < n then String.mk (List.replicate (n - s.length) '0') ++ s else s

/-- Python fixed-point formatting `f"{q:.<decs>f}"` over exact rationals. -/
def fmtFixed (decs : ℕ) (q : ℚ) : String :=
  let scaled : ℤ := round (q * (10 : ℚ) ^ decs)
  let sign := if scaled < 0 then "-" else ""
  let a := scaled.natAbs
  if decs = 0 then sign ++ toString a
  else sign ++ toString (a / 10 ^ decs) ++ "." ++ zeroPad decs (toString (a % 10 ^ decs))

/-- `f"{q:.2f}"`. -/
def fmt2 (q : ℚ) : String := fmtFixed 2 q

/-- `f"{q:.1f}"`. -/
def fmt1 (q : ℚ) : String := fmtFixed 1 q

/-- `f"{q:+.1f}"` (explicit sign). -/
def fmt1p (q : ℚ) : String := if 0 ≤ q then "+" ++ fmtFixed 1 q else fmtFixed 1 q

/-- The `financial_summary` sub-dict of the gathered context
(`DataFetcher.get_financial_summary`). -/
structure FinSummary where
  total_income : ℚ
  total_expenses : ℚ
  net_balance : ℚ
  avg_daily_spending : ℚ
  deriving DecidableEq, Repr

/-- The forecast `statistics` fields read by the insights generator. -/
structure ForecastStats where
  historical_avg_daily : ℚ
  forecast_avg_daily : ℚ
  trend_percentage : ℚ
  deriving DecidableEq, Repr

/-- The anomaly `statistics` fields read by the insights generator. -/
structure AnomalyStats where
  anomalies_detected : ℕ
  total_anomalous_spending : ℚ
  deriving DecidableEq, Repr

/-- The goals-analysis fields read by the insights generator. -/
structure GoalsAnalysis where
  total_goals : ℕ
  total_monthly_commitment : ℚ
  overall_assessment : String
  deriving DecidableEq, Repr

/-- The budget-recommendation fields read by the insights generator. -/
structure BudgetSummary where
  total_recommended_budget : ℚ
  deriving DecidableEq, Repr

/-- The context dict assembled by `InsightsService._gather_financial_context`
(src/ml-service/services/insights_service.py lines 215-266): each sub-field is
present only when its sub-call succeeded. -/
structure FinContext where
  has_data : Bool
  financial_summary : Option FinSummary
  forecast_available : Bool
  forecast : Option ForecastStats
  anomalies_count : ℕ
  anomalies : Option AnomalyStats
  budget_available : Bool
  budget_recommendations : Option BudgetSummary
  goals_count : ℕ
  goals_analysis : Option GoalsAnalysis
  deriving DecidableEq, Repr

/-- `InsightsService._generate_basic_insights(context)`
(src/ml-service/services/insights_service.py lines 384-486): the deterministic
rule-based narrative, a pure function of the gathered context fields. -/
def generateBasicInsights (ctx : FinContext) : String :=
  let healthSection : List String :=
    ["**Overall Financial Health Assessment:**"] ++
    (match ctx.financial_summary with
     | none => []
     | some summary =>
       if 0 < summary.net_balance then
         let savingsRate := if 0 < summary.total_income then
           summary.net_balance / summary.total_income * 100 else 0
         ["You have a positive net balance of $" ++ fmt2 summary.net_balance ++
           " over the last 30 days, with a savings rate of " ++ fmt1 savingsRate ++ "%."]
       else
         ["Your expenses exceeded income by $" ++ fmt2 |summary.net_balance| ++
           " in the last 30 days. Consider reviewing your spending patterns."])
  let forecastInsight : List String :=
    if ctx.forecast_available then
      let forecast := ctx.forecast.getD ⟨0, 0, 0⟩
      let trend := forecast.trend_percentage
      if 10 < trend then
        ["1. Your spending is trending upward by " ++ fmt1 trend ++
          "%. Daily spending is projected to increase from $" ++
          fmt2 forecast.historical_avg_daily ++ " to $" ++
          fmt2 forecast.forecast_avg_daily ++ "."]
      else if trend < -10 then
        ["1. Great news! Your spending is trending downward by " ++ fmt1 |trend| ++
          "%. You\x27re reducing daily spending from $" ++
          fmt2 forecast.historical_avg_daily ++ " to $" ++
          fmt2 forecast.forecast_avg_daily ++ "."]
      else
        ["1. Your spending patterns are stable with minimal change (" ++
          fmt1p trend ++ "%)."]
    else []
  let anomalyInsight : List String :=
    if 0 < ctx.anomalies_count then
      let anomalies := ctx.anomalies.getD ⟨0, 0⟩
      ["2. Detected " ++ toString anomalies.anomalies_detected ++
        " unusual transactions totaling $" ++ fmt2 anomalies.total_anomalous_spending ++
        ". Review these for unexpected charges or one-time expenses."]
    else
      ["2. No unusual spending patterns detected. Your transactions appear consistent with your typical behavior."]
  let goalsInsight : List String :=
    if 0 < ctx.goals_count then
      let goals := ctx.goals_analysis.getD ⟨0, 0, ""⟩
      if goals.overall_assessment = "on_track" then
        ["3. Your " ++ toString goals.total_goals ++
          " financial goal(s) are on track with $" ++
          fmt2 goals.total_monthly_commitment ++ "/month in commitments."]
      else if goals.overall_assessment = "overcommitted" then
        ["3. Your " ++ toString goals.total_goals ++ " goals require $" ++
          fmt2 goals.total_monthly_commitment ++
          "/month, which may exceed your savings capacity. Consider adjusting timelines or contributions."]
      else
        ["3. You have " ++ toString goals.total_goals ++
          " active financial goal(s) that may need adjustment to improve achievability."]
    else
      ["3. Consider setting financial goals to track progress toward savings targets, vacations, or major purchases."]
  let budgetRec : List String :=
    if ctx.budget_available then
      let budgets := ctx.budget_recommendations.getD ⟨0⟩
      ["1. Based on your spending patterns, a monthly budget of $" ++
        fmt2 budgets.total_recommended_budget ++
        " is recommended. Review category-specific budgets to optimize spending."]
    else
      ["1. Start tracking expenses by category to receive personalized budget recommendations."]
  let spendingRec : List String :=
    match ctx.financial_summary with
    | some summary =>
      if 0 < summary.avg_daily_spending then
        ["2. Reducing daily spending by 15% ($" ++
          fmt2 (summary.avg_daily_spending * 0.15) ++ "/day) could save $" ++
          fmt2 (summary.avg_daily_spending * 0.15 * 30) ++ "/month."]
      else
        ["2. Continue tracking transactions to identify spending reduction opportunities."]
    | none =>
      ["2. Track your daily expenses consistently to identify areas where you can reduce spending."]
  let goalRec : List String :=
    if ctx.goals_count = 0 then
      ["3. Set up an emergency fund goal of 3-6 months of expenses as a financial safety net."]
    else
      ["3. Automate your savings by setting up automatic transfers on payday to stay consistent with your goals."]
  let caution : List String :=
    if 0 < ctx.goals_count then
      let goals := ctx.goals_analysis.getD ⟨0, 0, ""⟩
      if goals.overall_assessment = "overcommitted" then
        ["You\x27re committed to more in monthly savings than your typical capacity. This may lead to missed goals or financial stress. Consider prioritizing your most important goals."]
      else []
    else
      match ctx.financial_summary with
      | some summary =>
        if summary.net_balance < 0 then
          ["Your spending exceeded income by $" ++ fmt2 |summary.net_balance| ++
            " last month. If this continues, it could impact your financial stability. Focus on reducing discretionary expenses."]
        else
          ["Continue monitoring your spending patterns to catch any emerging issues early. Consistency is key to financial health."]
      | none =>
        ["Continue monitoring your spending patterns to catch any emerging issues early. Consistency is key to financial health."]
  String.intercalate "\n"
    (healthSection ++ ["\n**Top 3 Insights:**"] ++
      forecastInsight ++ anomalyInsight ++ goalsInsight ++
      ["\n**Top 3 Recommendations:**"] ++ budgetRec ++ spendingRec ++ goalRec ++
      ["\n**One Caution:**"] ++ caution)

/-- The `context_used` sub-dict of a successful insights response. -/
structure ContextUsed where
  spending_forecast : Bool
  anomalies_detected : ℕ
  budgets_analyzed : Bool
  goals_analyzed : ℕ
  deriving DecidableEq, Repr

/-- The response envelope of `generate_comprehensive_insights`. -/
structure InsightsResult where
  success : Bool
  error : Option String
  insights : String
  ai_unavailable : Bool
  context_used : Option ContextUsed
  deriving DecidableEq, Repr

/-- `InsightsService.generate_comprehensive_insights`
(src/ml-service/services/insights_service.py lines 33-118), as a function of
the sufficiency verdict, the gathered context and the outcome of the remote
narrative-generation call (`none` models any exception from the Gemini call;
the fallback branch never consults it). -/
def generateComprehensiveInsights (sufficiency : SufficiencyVerdict)
    (ctx : FinContext) (geminiResponse : Option String) : InsightsResult :=
  if !sufficiency.sufficient then
    { success := false
      error := some ("Insufficient data for insights: " ++ sufficiency.reason)
      insights := ""
      ai_unavailable := false
      context_used := none }
  else if !ctx.has_data then
    { success := false
      error := some "Insufficient financial data for insights"
      insights := ""
      ai_unavailable := false
      context_used := none }
  else
    match geminiResponse with
    | some text =>
      { success := true
        error := none
        insights := text
        ai_unavailable := false
        context_used := some ⟨ctx.forecast_available, ctx.anomalies_count,
          ctx.budget_available, ctx.goals_count⟩ }
    | none =>
      { success := true
        error := none
        insights := generateBasicInsights ctx
        ai_unavailable := true
        context_used := some ⟨ctx.forecast_available, ctx.anomalies_count,
          ctx.budget_available, ctx.goals_count⟩ }

/-- C5: when the sufficiency check passes, the context has data and the remote
narrative call fails, the response still has `success = true`, carries
`ai_unavailable = true`, and its insights text is exactly
`generateBasicInsights ctx` — a pure function of the gathered context alone
(it takes no remote-call argument). -/
theorem C5_fallback_on_remote_failure (suff : SufficiencyVerdict)
    (ctx : FinContext) (hs : suff.sufficient = true) (hd : ctx.has_data = true) :
    (generateComprehensiveInsights suff ctx none).success = true
    ∧ (generateComprehensiveInsights suff ctx none).ai_unavailable = true
    ∧ (generateComprehensiveInsights suff ctx none).insights =
        generateBasicInsights ctx := by
  simp [generateComprehensiveInsights, hs, hd]

/-- Witness for C5: a sufficient verdict and a minimal context with data. -/
theorem C5_fallback_on_remote_failure_witness :
    (generateComprehensiveInsights
        ⟨true, "Data is sufficient", 40, 35, 25, some 0, some 39⟩
        ⟨true, none, false, none, 0, none, false, none, 0, none⟩ none).success = true
    ∧ (generateComprehensiveInsights
        ⟨true, "Data is sufficient", 40, 35, 25, some 0, some 39⟩
        ⟨true, none, false, none, 0, none, false, none, 0, none⟩ none).ai_unavailable = true
    ∧ (generateComprehensiveInsights
        ⟨true, "Data is sufficient", 40, 35, 25, some 0, some 39⟩
        ⟨true, none, false, none, 0, none, false, none, 0, none⟩ none).insights =
      generateBasicInsights ⟨true, none, false, none, 0, none, false, none, 0, none⟩ :=
  C5_fallback_on_remote_failure _ _ rfl rfl

/-- Sample variance with denominator `n - 1` (`pandas.Series.var`, the square
of `df['y'].std()`); the `n = 1` case (NaN in pandas) is unreachable under the
30-day sufficiency gate. -/
def sampleVar (l : List ℚ) : ℚ :=
  ((l.map (fun y => (y - listMean l) ^ 2)).sum) / ((l.length : ℚ) - 1)

/-- `df['y'].std()` — the historical standard deviation of the zero-filled
daily spending series. -/
noncomputable def histStd (l : List ℚ) : ℝ := Real.sqrt ((sampleVar l : ℚ) : ℝ)

/-- `df.tail(7)['y'].mean()` — the mean of the last (up to) 7 daily values. -/
def recentMean (l : List ℚ) : ℚ := listMean (l.drop (l.length - 7))

/-- The `trend` of the fallback forecast
(src/ml-service/services/forecast_service.py lines 153-158). -/
def fallbackTrend (l : List ℚ) : ℚ :=
  if 7 < l.length then
    if 0 < listMean l then (recentMean l - listMean l) / listMean l else 0
  else 0

/-- The raw fallback prediction for day index `i`
(src/ml-service/services/forecast_service.py line 167). -/
def fallbackPred (l : List ℚ) (i : ℕ) : ℚ :=
  listMean l * (1 + fallbackTrend l * ((i : ℚ) / 30))

/-- One row of the `future_forecast` frame (`yhat`, `yhat_lower`,
`yhat_upper`), whether produced by the fitted Prophet model or by the
fallback loop. -/
structure RawForecastRow where
  yhat : ℝ
  yhat_lower : ℝ
  yhat_upper : ℝ

/-- The fallback rows built when Prophet fails
(src/ml-service/services/forecast_service.py lines 160-175). -/
noncomputable def fallbackRows (l : List ℚ) (forecastDays : ℕ) :
    List RawForecastRow :=
  (List.range forecastDays).map (fun i =>
    { yhat := max 0 ((fallbackPred l i : ℚ) : ℝ)
      yhat_lower := max 0 (((fallbackPred l i : ℚ) : ℝ) - histStd l)
      yhat_upper := ((fallbackPred l i : ℚ) : ℝ) + histStd l })

/-- Python `round(x, 2)` over the reals. -/
noncomputable def round2R (x : ℝ) : ℝ := ((round (x * 100) : ℤ) : ℝ) / 100

/-- One emitted forecast point
(src/ml-service/services/forecast_service.py lines 180-185). -/
structure ForecastPoint where
  predicted_spending : ℝ
  lower_bound : ℝ
  upper_bound : ℝ

/-- The response-building loop of `train_and_predict` (lines 178-185): every
field is rounded to 2 decimals and clamped non-negative. -/
noncomputable def emitRow (r : RawForecastRow) : ForecastPoint :=
  { predicted_spending := max 0 (round2R r.yhat)
    lower_bound := max 0 (round2R r.yhat_lower)
    upper_bound := max 0 (round2R r.yhat_upper) }

/-- The forecast list emitted by `ForecastService.train_and_predict`
(src/ml-service/services/forecast_service.py lines 108-185) past the
sufficiency gate: `prophetRows = some rows` models a successful Prophet fit
producing `rows`; `none` models any fitting failure, which switches to the
fallback rows built from the daily series `l`. -/
noncomputable def trainAndPredictPoints (prophetRows : Option (List RawForecastRow))
    (l : List ℚ) (forecastDays : ℕ) : List ForecastPoint :=
  (prophetRows.getD (fallbackRows l forecastDays)).map emitRow

theorem round2R_mono {x y : ℝ} (h : x ≤ y) : round2R x ≤ round2R y := by
  unfold round2R
  have h1 : round (x * 100) ≤ round (y * 100) := by
    rw [round_eq, round_eq]
    exact Int.floor_le_floor (by linarith)
  have h2 : ((round (x * 100) : ℤ) : ℝ) ≤ ((round (y * 100) : ℤ) : ℝ) :=
    Int.cast_le.mpr h1
  linarith

theorem round2R_zero : round2R 0 = 0 := by
  simp [round2R]

theorem max_round2R_max (x : ℝ) :
    max 0 (round2R (max 0 x)) = max 0 (round2R x) := by
  rcases le_or_lt x 0 with h | h
  · rw [max_eq_left h, round2R_zero]
    have hx : round2R x ≤ 0 := by
      have := round2R_mono h
      rwa [round2R_zero] at this
    rw [max_eq_left hx, max_self]
  · rw [max_eq_right h.le]

/-- C3: every emitted forecast point satisfies
`0 ≤ lower_bound ≤ predicted_spending ≤ upper_bound`.  On the fallback path
this is unconditional; on the fitted path it holds under the interval contract
of the external time-series model (the point prediction lies inside its own
interval), which the emission stage preserves because rounding is monotone
and all three fields are clamped non-negative together. -/
theorem C3_forecast_bounds (prophetRows : Option (List RawForecastRow))
    (l : List ℚ) (forecastDays : ℕ)
    (hp : ∀ rows, prophetRows = some rows → ∀ r ∈ rows,
      r.yhat_lower ≤ r.yhat ∧ r.yhat ≤ r.yhat_upper) :
    ∀ p ∈ trainAndPredictPoints prophetRows l forecastDays,
      0 ≤ p.lower_bound ∧ p.lower_bound ≤ p.predicted_spending ∧
        p.predicted_spending ≤ p.upper_bound := by
  intro p hmem
  rw [trainAndPredictPoints] at hmem
  obtain ⟨r, hr, rfl⟩ := List.mem_map.mp hmem
  refine ⟨le_max_left _ _, ?_, ?_⟩
  · match hopt : prophetRows with
    | some rows =>
      have hord := (hp rows rfl r (by simpa using hr)).1
      exact max_le_max le_rfl (round2R_mono hord)
    | none =>
      simp only [Option.getD_none, fallbackRows] at hr
      obtain ⟨i, _, rfl⟩ := List.mem_map.mp hr
      dsimp only [emitRow]
      rw [max_round2R_max, max_round2R_max]
      have hσ : (0 : ℝ) ≤ histStd l := Real.sqrt_nonneg _
      exact max_le_max le_rfl (round2R_mono (by linarith))
  · match hopt : prophetRows with
    | some rows =>
      have hord := (hp rows rfl r (by simpa using hr)).2
      exact max_le_max le_rfl (round2R_mono hord)
    | none =>
      simp only [Option.getD_none, fallbackRows] at hr
      obtain ⟨i, _, rfl⟩ := List.mem_map.mp hr
      dsimp only [emitRow]
      rw [max_round2R_max]
      have hσ : (0 : ℝ) ≤ histStd l := Real.sqrt_nonneg _
      exact max_le_max le_rfl (round2R_mono (by linarith))

/-- Witness for C3: a single fitted row with interval `[1, 3]` around the
point prediction `2`. -/
theorem C3_forecast_bounds_witness :
    0 ≤ (emitRow ⟨2, 1, 3⟩).lower_bound ∧
      (emitRow ⟨2, 1, 3⟩).lower_bound ≤ (emitRow ⟨2, 1, 3⟩).predicted_spending ∧
      (emitRow ⟨2, 1, 3⟩).predicted_spending ≤ (emitRow ⟨2, 1, 3⟩).upper_bound := by
  have h := C3_forecast_bounds (some [⟨2, 1, 3⟩]) [] 0 ?_ (emitRow ⟨2, 1, 3⟩) ?_
  · exact h
  · intro rows hrows r hr
    cases Option.some.inj hrows
    rw [List.mem_singleton] at hr
    subst hr
    constructor <;> norm_num
  · rw [trainAndPredictPoints]
    exact List.mem_map_of_mem _ (List.mem_singleton.mpr rfl)

/-- The trend formula asserted by the claim for the fallback path:
`(mean of last 7 observed days - historical_mean)/historical_mean` when the
historical mean is positive, else 0.  Under the 30-day precondition it
coincides with the source's `fallbackTrend` (whose `len > 7` guard is then
always taken). -/
def trendLast7 (l : List ℚ) : ℚ :=
  if 0 < listMean l then (recentMean l - listMean l) / listMean l else 0

/-- The claim's raw fallback prediction for day index `i`:
`historical_mean * (1 + trend * i/30)`. -/
def rampPred (l : List ℚ) (i : ℕ) : ℚ :=
  listMean l * (1 + trendLast7 l * ((i : ℚ) / 30))

/-- C6: on the fallback path with at least 30 days of zero-filled daily data,
the point for day index `i` is built from the raw prediction
`historical_mean * (1 + trend * i/30)` (trend as in `trendLast7`), with lower
bound one historical standard deviation below the raw prediction and upper
bound one above it; the emitted fields are exactly these three values after
the final rounding and non-negative clamping. -/
theorem C6_fallback_formula (l : List ℚ) (forecastDays i : ℕ)
    (hl : 30 ≤ l.length) (hi : i < forecastDays) :
    (trainAndPredictPoints none l forecastDays)[i]? =
      some { predicted_spending := max 0 (round2R ((rampPred l i : ℚ) : ℝ))
             lower_bound :=
               max 0 (round2R (((rampPred l i : ℚ) : ℝ) - histStd l))
             upper_bound :=
               max 0 (round2R (((rampPred l i : ℚ) : ℝ) + histStd l)) } := by
  have h7 : 7 < l.length := by omega
  have hpred : fallbackPred l i = rampPred l i := by
    unfold fallbackPred fallbackTrend rampPred trendLast7
    rw [if_pos h7]
  rw [trainAndPredictPoints, Option.getD_none, fallbackRows, List.getElem?_map,
    List.getElem?_map, List.getElem?_range hi]
  simp only [Option.map_some']
  congr 1
  dsimp only [emitRow]
  rw [hpred]
  congr 1
  · exact max_round2R_max _
  · rcases le_or_lt (((rampPred l i : ℚ) : ℝ) - histStd l) 0 with h | h
    · have h0 : (0 : ℝ) ⊔ (((rampPred l i : ℚ) : ℝ) - histStd l) = 0 := max_eq_left h
      rw [h0, round2R_zero]
      have hx : round2R (((rampPred l i : ℚ) : ℝ) - histStd l) ≤ 0 := by
        have := round2R_mono h
        rwa [round2R_zero] at this
      rw [max_eq_left hx, max_self]
    · rw [max_eq_right h.le]

/-- Witness for C6: 30 constant days of spending 1 — the trend is 0, the raw
prediction for day 2 is the historical mean, and the bounds sit one (zero)
standard deviation around it. -/
theorem C6_fallback_formula_witness :
    (trainAndPredictPoints none (List.replicate 30 (1 : ℚ)) 5)[2]? =
      some { predicted_spending :=
               max 0 (round2R ((rampPred (List.replicate 30 (1 : ℚ)) 2 : ℚ) : ℝ))
             lower_bound :=
               max 0 (round2R (((rampPred (List.replicate 30 (1 : ℚ)) 2 : ℚ) : ℝ) -
                 histStd (List.replicate 30 (1 : ℚ))))
             upper_bound :=
               max 0 (round2R (((rampPred (List.replicate 30 (1 : ℚ)) 2 : ℚ) : ℝ) +
                 histStd (List.replicate 30 (1 : ℚ)))) } :=
  C6_fallback_formula (List.replicate 30 (1 : ℚ)) 5 2 (by simp) (by norm_num)
